import Mathlib

/-!
Shallow embedding of the untrusted-host ocall boundary layer of
`cosmwasm/packages/sgx-vm/src/wasmi/exports.rs`.

Modelling conventions:
* Byte sequences (`&[u8]`, `Vec<u8>`) are `List Nat`.
* Raw pointers are `Nat` addresses, with `0` playing the role of the null
  pointer.  A heap is a `List` of allocations; the address of slot `i` is
  `i + 1`, so fresh allocations never collide with null.
* Out-parameters (`*mut u64`, `*mut UntrustedVmError`, `*mut EnclaveBuffer`)
  are modelled as cells of an explicit `HostState`; "the call leaves the
  out-parameter unwritten" becomes "the cell's final content equals its
  initial content, for every initial content".
* A Rust computation that may panic is modelled as returning
  `Option α`, where `none` is "the call unwound"; `std::panic.catch_unwind`
  then corresponds to matching on the `Option`.
* Fallible Rust computations (`VmResult<T>`) are `Except VmError T`.
-/

set_option autoImplicit false

namespace SgxVm

/-- Outcome discriminant of every boundary call
(`enclave_ffi_types::OcallReturn`). -/
inductive OcallReturn where
  | Success
  | Failure
  | Panic
  deriving DecidableEq, Repr

/-- Modelled from the spec: the rich host-side error type (`VmError`, whose
definition lives in the `errors` module, outside this excerpt).  Only its
identity matters at this layer, so it is a wrapper around a numeric code. -/
structure VmError where
  code : Nat
  deriving DecidableEq, Repr

/-- `VmResult<T>` from the source: either a `VmError` or a value. -/
abbrev VmResult (α : Type) := Except VmError α

/-- A handle to a buffer allocated on the untrusted (user-space) side
(`enclave_ffi_types::UserSpaceBuffer`): a raw address, `0` meaning null. -/
structure UserSpaceBuffer where
  ptr : Nat
  deriving DecidableEq, Repr

/-- A handle to a buffer allocated inside the enclave
(`enclave_ffi_types::EnclaveBuffer`): a raw address, `0` meaning null.
Its `default` value is the null sentinel that signals a missing key. -/
structure EnclaveBuffer where
  ptr : Nat
  deriving DecidableEq, Repr

instance : Inhabited EnclaveBuffer := ⟨⟨0⟩⟩

/-- `EnclaveBuffer::default()`: the null sentinel handle. -/
def EnclaveBuffer.default : EnclaveBuffer := ⟨0⟩

/-- The user-space heap of buffers created by `ocall_allocate`:
slot `i` holds the byte contents of the allocation at address `i + 1`. -/
abbrev UserHeap := List (List Nat)

/-- `ocall_allocate`: copy a byte sequence into a fresh user-space heap
allocation and return an opaque handle to it together with the new heap.
`Box::into_raw` never yields a null pointer, which the model reflects by
returning address `h.length + 1`. -/
def ocall_allocate (buffer : List Nat) (h : UserHeap) : UserSpaceBuffer × UserHeap :=
  (⟨h.length + 1⟩, h ++ [buffer])

/-- `recover_buffer`: given a handle as returned by `ocall_allocate`,
return `none` if it is the null sentinel, otherwise the contents of the
backing allocation.  The one-time-reclaim obligation (the Rust code takes
back ownership with `Box::from_raw`) is a protocol discipline on callers
and is not enforced by this function itself. -/
def recover_buffer (p : UserSpaceBuffer) (h : UserHeap) : Option (List Nat) :=
  if p.ptr = 0 then none else h.get? (p.ptr - 1)

/-- The mutable host-side state threaded through a boundary call:
the three out-parameter cells, the heap of boxed errors produced by
`store_vm_error`, the enclave-side heap of buffers produced by
`allocate_enclave_buffer`, and a flag describing whether the next
enclave-side allocation fails (the SGX runtime may refuse it;
`allocate_enclave_buffer` itself is outside this excerpt, but its
fallibility is visible in the `map_err` applied to it in `ocall_read_db`). -/
structure HostState where
  gas_used : Nat
  vm_error : Nat
  value : EnclaveBuffer
  errHeap : List VmError
  encHeap : List (List Nat)
  encAllocFail : Bool
  deriving DecidableEq, Repr

/-- `store_vm_error`: box the error on the heap and write the address of
the box to the `vm_error` out-parameter cell.  Addresses are `i + 1` for
slot `i`, so a boxed error handle is never null. -/
def store_vm_error (vm_err : VmError) (s : HostState) : HostState :=
  { s with
    errHeap := s.errHeap ++ [vm_err]
    vm_error := s.errHeap.length + 1 }

/-- Modelled from the spec: `super::allocate_enclave_buffer` (defined in
`wasmi/mod.rs`, outside this excerpt) copies a byte sequence into a fresh
enclave-side allocation and returns a handle, or fails with an SGX error.
The model makes the failure explicit through `HostState.encAllocFail`. -/
def allocate_enclave_buffer (buffer : List Nat) (s : HostState) :
    Except Unit (EnclaveBuffer × HostState) :=
  if s.encAllocFail then Except.error ()
  else Except.ok (⟨s.encHeap.length + 1⟩, { s with encHeap := s.encHeap ++ [buffer] })

/-- Modelled from the spec: the enclave-side reclaim of a value handle
produced via `allocate_enclave_buffer` ("`reclaim(handle) -> bytes | none`":
`none` on the null sentinel, otherwise the contents of the allocation). -/
def recover_enclave_buffer (b : EnclaveBuffer) (heap : List (List Nat)) : Option (List Nat) :=
  if b.ptr = 0 then none else heap.get? (b.ptr - 1)

/-- The caller-owned context data embedded in a call context
(the `context_data : *mut c_void`
pointing at the `ContextData` holding the concrete storage instance). -/
structure Ctx (σ : Type) where
  store : σ

/-- The `Storage` strategy trait consumed by the dispatch layer
(`crate::Storage`; modelled from the spec:
"`get(key) -> (optional value, gas_cost) or error`,
`set(key, value) -> gas_cost or error`, `remove(key) -> gas_cost or error`").
`set` and `remove` mutate the store, so the model returns the new store;
every operation may also panic (`none`). -/
class Storage (σ : Type) where
  get : σ → List Nat → Option (VmResult (Option (List Nat) × Nat))
  set : σ → List Nat → List Nat → Option (VmResult (Nat × σ))
  remove : σ → List Nat → Option (VmResult (Nat × σ))

/-- The `Querier` strategy trait (`crate::Querier`; modelled from the spec:
"a second pluggable capability bound alongside storage at construction time;
its operations are outside this excerpt's scope").  It only participates as
a phantom type parameter of the dispatch constructors. -/
class Querier (κ : Type) where
  query : κ → List Nat → Option (VmResult (List Nat × Nat))

/-- The dispatch table: one function pointer per storage operation, each
bound at construction time (`ExportImplementations`). -/
structure ExportImplementations (σ : Type) where
  read_db : Ctx σ → List Nat → Option (VmResult (Option (List Nat) × Nat))
  remove_db : Ctx σ → List Nat → Option (VmResult (Nat × σ))
  write_db : Ctx σ → List Nat → List Nat → Option (VmResult (Nat × σ))

/-- `ocall_read_db_impl::<S, Q>`: reach into the context's storage and
perform `get`. -/
def ocall_read_db_impl (σ κ : Type) [Storage σ] [Querier κ] :
    Ctx σ → List Nat → Option (VmResult (Option (List Nat) × Nat)) :=
  fun context key => Storage.get context.store key

/-- `ocall_remove_db_impl::<S, Q>`: reach into the context's storage and
perform `remove`. -/
def ocall_remove_db_impl (σ κ : Type) [Storage σ] [Querier κ] :
    Ctx σ → List Nat → Option (VmResult (Nat × σ)) :=
  fun context key => Storage.remove context.store key

/-- `ocall_write_db_impl::<S, Q>`: reach into the context's storage and
perform `set`. -/
def ocall_write_db_impl (σ κ : Type) [Storage σ] [Querier κ] :
    Ctx σ → List Nat → List Nat → Option (VmResult (Nat × σ)) :=
  fun context key value => Storage.set context.store key value

/-- `ExportImplementations::new::<S, Q>()`: bind the three function-pointer
slots to the monomorphizations for `(S, Q)`. -/
def ExportImplementations.new (σ κ : Type) [Storage σ] [Querier κ] :
    ExportImplementations σ :=
  { read_db := ocall_read_db_impl σ κ
    remove_db := ocall_remove_db_impl σ κ
    write_db := ocall_write_db_impl σ κ }

/-- `FullContext`: the object the opaque context pointer handed to the
enclave actually points at — the caller-owned context data plus the
dispatch table. -/
structure FullContext (σ : Type) where
  context_data : Ctx σ
  implementation : ExportImplementations σ

/-- `FullContext::new::<S, Q>(context_data)`. -/
def FullContext.new (σ κ : Type) [Storage σ] [Querier κ] (context_data : Ctx σ) :
    FullContext σ :=
  { context_data := context_data
    implementation := ExportImplementations.new σ κ }

/-- `get_implementations_from_context`: recover the dispatch table from the
context. -/
def get_implementations_from_context {σ : Type} (context : FullContext σ) :
    ExportImplementations σ :=
  context.implementation

/-- `ocall_read_db`: look the key up through the dispatched `read_db`
implementation.  The implementation call sits inside
`std::panic.catch_unwind`, so a panic (`none`) becomes `Panic`.  On a
normal return: an implementation error is boxed via `store_vm_error` and
reported as `Failure`; otherwise the gas cost is written, and the found
value (if any) is copied into a fresh enclave buffer whose handle is
written to the `value` cell — a failed enclave allocation yields `Failure`
with nothing further written, and a missing value yields `Success` with
the null sentinel written instead. -/
def ocall_read_db {σ : Type} (context : FullContext σ) (key : List Nat)
    (s : HostState) : OcallReturn × HostState :=
  let implementation := (get_implementations_from_context context).read_db
  match implementation context.context_data key with
  | none => (OcallReturn.Panic, s)
  | some (Except.error err) => (OcallReturn.Failure, store_vm_error err s)
  | some (Except.ok (value, gas_cost)) =>
    let s := { s with gas_used := gas_cost }
    match value with
    | none => (OcallReturn.Success, { s with value := EnclaveBuffer.default })
    | some val =>
      match allocate_enclave_buffer val s with
      | Except.error _ => (OcallReturn.Failure, s)
      | Except.ok (enclave_buffer, s) =>
          (OcallReturn.Success, { s with value := enclave_buffer })

/-- `ocall_remove_db`: run the dispatched `remove_db` implementation inside
the panic-containment scope; on `Ok` write the gas cost and report
`Success` (returning the mutated store), on `Err` box the error and report
`Failure`, on a caught panic report `Panic`. -/
def ocall_remove_db {σ : Type} (context : FullContext σ) (key : List Nat)
    (s : HostState) : OcallReturn × FullContext σ × HostState :=
  let implementation := (get_implementations_from_context context).remove_db
  match implementation context.context_data key with
  | none => (OcallReturn.Panic, context, s)
  | some (Except.error err) => (OcallReturn.Failure, context, store_vm_error err s)
  | some (Except.ok (gas_cost, store)) =>
      (OcallReturn.Success, { context with context_data := ⟨store⟩ },
        { s with gas_used := gas_cost })

/-- `ocall_write_db`: run the dispatched `write_db` implementation inside
the panic-containment scope; on `Ok` write the gas cost and report
`Success` (returning the mutated store), on `Err` box the error and report
`Failure`, on a caught panic report `Panic`. -/
def ocall_write_db {σ : Type} (context : FullContext σ) (key value : List Nat)
    (s : HostState) : OcallReturn × FullContext σ × HostState :=
  let implementation := (get_implementations_from_context context).write_db
  match implementation context.context_data key value with
  | none => (OcallReturn.Panic, context, s)
  | some (Except.error err) => (OcallReturn.Failure, context, store_vm_error err s)
  | some (Except.ok (gas_cost, store)) =>
      (OcallReturn.Success, { context with context_data := ⟨store⟩ },
        { s with gas_used := gas_cost })

/-! ### Concrete strategy instances used to exhibit runs of the handlers -/

/-- A concrete storage backend: an association list from keys to values,
newest binding first. -/
abbrev MapStore := List (List Nat × List Nat)

/-- First-match lookup in a `MapStore`. -/
def lookupKV : MapStore → List Nat → Option (List Nat)
  | [], _ => none
  | (k, v) :: rest, key => if k = key then some v else lookupKV rest key

instance : Storage MapStore where
  get st key := some (Except.ok (lookupKV st key, 7))
  set st key value := some (Except.ok (3, ((key, value) :: st : MapStore)))
  remove st key := some (Except.ok (2, (st.filter (fun p => p.1 ≠ key) : MapStore)))

/-- A storage backend whose every operation panics. -/
structure PanicStore where
  unit : Unit

instance : Storage PanicStore where
  get _ _ := none
  set _ _ _ := none
  remove _ _ := none

/-- A storage backend whose every operation reports a domain error. -/
structure FailStore where
  unit : Unit

instance : Storage FailStore where
  get _ _ := some (Except.error ⟨1⟩)
  set _ _ _ := some (Except.error ⟨2⟩)
  remove _ _ := some (Except.error ⟨3⟩)

instance : Querier Unit where
  query _ _ := none

/-- A host state whose out-parameter cells hold arbitrary initial junk and
whose heaps are empty; enclave allocation succeeds. -/
def st0 : HostState :=
  { gas_used := 55, vm_error := 0, value := EnclaveBuffer.default
    errHeap := [], encHeap := [], encAllocFail := false }

/-- `st0` with a failing enclave-side allocator. -/
def stAllocFail : HostState := { st0 with encAllocFail := true }

def panicFC : FullContext PanicStore := FullContext.new PanicStore Unit ⟨⟨()⟩⟩

def failFC : FullContext FailStore := FullContext.new FailStore Unit ⟨⟨()⟩⟩

def mapFC (st : MapStore) : FullContext MapStore := FullContext.new MapStore Unit ⟨st⟩

/-! ### Claims -/

/-- C1: for each of the three boundary handlers, if the dispatched
implementation panics during the call, the handler returns the `Panic`
outcome (and, the handlers being total functions of the model, no panic
propagates out of them), for every context, key and value argument. -/
theorem panic_containment (σ : Type) (fc : FullContext σ) (key val : List Nat)
    (s : HostState) :
    (fc.implementation.read_db fc.context_data key = none →
      (ocall_read_db fc key s).1 = OcallReturn.Panic) ∧
    (fc.implementation.write_db fc.context_data key val = none →
      (ocall_write_db fc key val s).1 = OcallReturn.Panic) ∧
    (fc.implementation.remove_db fc.context_data key = none →
      (ocall_remove_db fc key s).1 = OcallReturn.Panic) := by
  refine ⟨fun h => ?_, fun h => ?_, fun h => ?_⟩ <;>
    simp [ocall_read_db, ocall_write_db, ocall_remove_db,
      get_implementations_from_context, h]

/-- Witness for C1: the panicking storage backend drives all three handlers
to the `Panic` outcome. -/
theorem panic_containment_witness :
    (ocall_read_db panicFC [1] st0).1 = OcallReturn.Panic ∧
    (ocall_write_db panicFC [1] [2] st0).1 = OcallReturn.Panic ∧
    (ocall_remove_db panicFC [1] st0).1 = OcallReturn.Panic :=
  ⟨(panic_containment PanicStore panicFC [1] [2] st0).1 rfl,
   (panic_containment PanicStore panicFC [1] [2] st0).2.1 rfl,
   (panic_containment PanicStore panicFC [1] [2] st0).2.2 rfl⟩

/-- C2: if the underlying storage's `get` returns `Ok` with no value,
`ocall_read_db` writes the reported gas cost, writes the null sentinel
`EnclaveBuffer.default` to the value out-parameter, and returns `Success`
(hence never `Failure` and never `Panic`). -/
theorem read_missing_key_success (σ κ : Type) [Storage σ] [Querier κ]
    (st : σ) (key : List Nat) (g : Nat) (s : HostState)
    (h : Storage.get st key = some (Except.ok ((none : Option (List Nat)), g))) :
    ocall_read_db (FullContext.new σ κ ⟨st⟩) key s =
      (OcallReturn.Success,
        { s with gas_used := g, value := EnclaveBuffer.default }) := by
  simp [ocall_read_db, get_implementations_from_context, FullContext.new,
    ExportImplementations.new, ocall_read_db_impl, h]

/-- Witness for C2: reading a key from the empty map store. -/
theorem read_missing_key_success_witness :
    ocall_read_db (mapFC []) [9] st0 =
      (OcallReturn.Success,
        { st0 with gas_used := 7, value := EnclaveBuffer.default }) :=
  read_missing_key_success MapStore Unit [] [9] 7 st0 rfl

/-- C3: allocating any byte sequence with `ocall_allocate` and reclaiming
the returned handle with `recover_buffer` yields back exactly that
sequence, and `recover_buffer` applied to the null sentinel handle returns
`none`. -/
theorem allocate_recover_roundtrip (b : List Nat) (h : UserHeap) :
    recover_buffer (ocall_allocate b h).1 (ocall_allocate b h).2 = some b ∧
    recover_buffer ⟨0⟩ h = none := by
  constructor
  · simp [ocall_allocate, recover_buffer]
  · simp [recover_buffer]

/-- C10: `ocall_allocate` never returns the null sentinel: the returned
handle has a non-null address, so `recover_buffer` on it returns `some`. -/
theorem allocate_never_null (b : List Nat) (h : UserHeap) :
    (ocall_allocate b h).1.ptr ≠ 0 ∧
    ∃ v, recover_buffer (ocall_allocate b h).1 (ocall_allocate b h).2 = some v := by
  refine ⟨by simp [ocall_allocate], b, ?_⟩
  simp [ocall_allocate, recover_buffer]

/-- C5: a call context built by `FullContext.new` for the type pair
`(σ, κ)` stores exactly the monomorphized implementations
`ocall_read_db_impl σ κ`, `ocall_write_db_impl σ κ` and
`ocall_remove_db_impl σ κ` in its dispatch table, and those
implementations invoke exactly `σ`'s `get`, `set` and `remove` on the
storage embedded in the context. -/
theorem dispatch_coherence (σ κ : Type) [Storage σ] [Querier κ] (d : Ctx σ) :
    (FullContext.new σ κ d).implementation.read_db = ocall_read_db_impl σ κ ∧
    (FullContext.new σ κ d).implementation.write_db = ocall_write_db_impl σ κ ∧
    (FullContext.new σ κ d).implementation.remove_db = ocall_remove_db_impl σ κ ∧
    (∀ key, ocall_read_db_impl σ κ d key = Storage.get d.store key) ∧
    (∀ key val, ocall_write_db_impl σ κ d key val = Storage.set d.store key val) ∧
    (∀ key, ocall_remove_db_impl σ κ d key = Storage.remove d.store key) :=
  ⟨rfl, rfl, rfl, fun _ => rfl, fun _ _ => rfl, fun _ => rfl⟩

/-- C4 counterexample: the claim "whenever the handler returns `Failure`,
the underlying error has been boxed and its address written to `vm_error`"
fails on `ocall_read_db`: with a present key and a failing enclave-side
allocator the handler returns `Failure` while the error heap and the
`vm_error` cell are left untouched (no error was boxed). -/
theorem failure_without_boxing_cex :
    (ocall_read_db (mapFC [([1], [2])]) [1] stAllocFail).1 = OcallReturn.Failure ∧
    (ocall_read_db (mapFC [([1], [2])]) [1] stAllocFail).2.errHeap = [] ∧
    (ocall_read_db (mapFC [([1], [2])]) [1] stAllocFail).2.vm_error = stAllocFail.vm_error :=
  ⟨rfl, rfl, rfl⟩

/-- C4 (amended): whenever the underlying storage operation itself fails
(the dispatched implementation returns `Err e`), each handler boxes `e` on
the heap via `store_vm_error`, writes the address of the box to the
`vm_error` out-parameter, and returns `Failure`; no implementation failure
is silently dropped. -/
theorem storage_failure_boxed (σ : Type) (fc : FullContext σ) (key val : List Nat)
    (e : VmError) (s : HostState) :
    ((store_vm_error e s).errHeap = s.errHeap ++ [e] ∧
      (store_vm_error e s).vm_error = s.errHeap.length + 1) ∧
    (fc.implementation.read_db fc.context_data key = some (Except.error e) →
      ocall_read_db fc key s = (OcallReturn.Failure, store_vm_error e s)) ∧
    (fc.implementation.write_db fc.context_data key val = some (Except.error e) →
      (ocall_write_db fc key val s).1 = OcallReturn.Failure ∧
      (ocall_write_db fc key val s).2.2 = store_vm_error e s) ∧
    (fc.implementation.remove_db fc.context_data key = some (Except.error e) →
      (ocall_remove_db fc key s).1 = OcallReturn.Failure ∧
      (ocall_remove_db fc key s).2.2 = store_vm_error e s) := by
  refine ⟨⟨rfl, rfl⟩, fun h => ?_, fun h => ?_, fun h => ?_⟩ <;>
    simp [ocall_read_db, ocall_write_db, ocall_remove_db,
      get_implementations_from_context, h]

/-- Witness for the amended C4: the failing storage backend drives each
handler to `Failure` with the error boxed. -/
theorem storage_failure_boxed_witness :
    ocall_read_db failFC [1] st0 = (OcallReturn.Failure, store_vm_error ⟨1⟩ st0) ∧
    (ocall_write_db failFC [1] [2] st0).2.2 = store_vm_error ⟨2⟩ st0 ∧
    (ocall_remove_db failFC [1] st0).1 = OcallReturn.Failure :=
  ⟨(storage_failure_boxed FailStore failFC [1] [2] ⟨1⟩ st0).2.1 rfl,
   ((storage_failure_boxed FailStore failFC [1] [2] ⟨2⟩ st0).2.2.1 rfl).2,
   ((storage_failure_boxed FailStore failFC [1] [2] ⟨3⟩ st0).2.2.2 rfl).1⟩

/-- C6: for `ocall_write_db` and `ocall_remove_db`, if the call returns
`Failure` or `Panic` then the `gas_used` out-parameter cell is left
exactly as it was before the call. -/
theorem gas_unwritten_on_non_success (σ : Type) (fc : FullContext σ)
    (key val : List Nat) (s : HostState) :
    ((ocall_write_db fc key val s).1 = OcallReturn.Failure ∨
      (ocall_write_db fc key val s).1 = OcallReturn.Panic →
      (ocall_write_db fc key val s).2.2.gas_used = s.gas_used) ∧
    ((ocall_remove_db fc key s).1 = OcallReturn.Failure ∨
      (ocall_remove_db fc key s).1 = OcallReturn.Panic →
      (ocall_remove_db fc key s).2.2.gas_used = s.gas_used) := by
  constructor
  · intro h
    cases hI : fc.implementation.write_db fc.context_data key val with
    | none => simp [ocall_write_db, get_implementations_from_context, hI]
    | some r =>
      cases r with
      | error e =>
        simp [ocall_write_db, get_implementations_from_context, store_vm_error, hI]
      | ok p =>
        obtain ⟨g, st'⟩ := p
        simp [ocall_write_db, get_implementations_from_context, hI] at h
  · intro h
    cases hI : fc.implementation.remove_db fc.context_data key with
    | none => simp [ocall_remove_db, get_implementations_from_context, hI]
    | some r =>
      cases r with
      | error e =>
        simp [ocall_remove_db, get_implementations_from_context, store_vm_error, hI]
      | ok p =>
        obtain ⟨g, st'⟩ := p
        simp [ocall_remove_db, get_implementations_from_context, hI] at h

/-- Witness for C6: failed writes and removes leave the gas cell alone. -/
theorem gas_unwritten_on_non_success_witness :
    (ocall_write_db failFC [1] [2] st0).2.2.gas_used = st0.gas_used ∧
    (ocall_remove_db failFC [1] st0).2.2.gas_used = st0.gas_used :=
  ⟨(gas_unwritten_on_non_success FailStore failFC [1] [2] st0).1 (Or.inl rfl),
   (gas_unwritten_on_non_success FailStore failFC [1] [2] st0).2 (Or.inl rfl)⟩

/-- C7: if the underlying storage's `set` (resp. `remove`) returns `Ok`
with a gas cost, `ocall_write_db` (resp. `ocall_remove_db`) writes that
gas cost to the `gas_used` cell and returns `Success`, leaving the rest of
the host state (in particular the value cell and the enclave heap — no
buffer is produced) unchanged.  `remove` of an absent key is covered: the
conclusion only needs the underlying `remove` to succeed. -/
theorem write_remove_success_gas (σ κ : Type) [Storage σ] [Querier κ]
    (st stW stR : σ) (key val : List Nat) (gw gr : Nat) (s : HostState) :
    (Storage.set st key val = some (Except.ok (gw, stW)) →
      (ocall_write_db (FullContext.new σ κ ⟨st⟩) key val s).1 = OcallReturn.Success ∧
      (ocall_write_db (FullContext.new σ κ ⟨st⟩) key val s).2.2 = { s with gas_used := gw }) ∧
    (Storage.remove st key = some (Except.ok (gr, stR)) →
      (ocall_remove_db (FullContext.new σ κ ⟨st⟩) key s).1 = OcallReturn.Success ∧
      (ocall_remove_db (FullContext.new σ κ ⟨st⟩) key s).2.2 = { s with gas_used := gr }) := by
  refine ⟨fun hset => ?_, fun hrem => ?_⟩
  · simp [ocall_write_db, get_implementations_from_context, FullContext.new,
      ExportImplementations.new, ocall_write_db_impl, hset]
  · simp [ocall_remove_db, get_implementations_from_context, FullContext.new,
      ExportImplementations.new, ocall_remove_db_impl, hrem]

/-- Witness for C7: writing to and removing a key absent from the empty
map store both report `Success`. -/
theorem write_remove_success_gas_witness :
    (ocall_write_db (FullContext.new MapStore Unit ⟨[]⟩) [5] [6] st0).1 = OcallReturn.Success ∧
    (ocall_remove_db (FullContext.new MapStore Unit ⟨[]⟩) [5] st0).1 = OcallReturn.Success :=
  ⟨((write_remove_success_gas MapStore Unit [] [([5], [6])] [] [5] [6] 3 2 st0).1 rfl).1,
   ((write_remove_success_gas MapStore Unit [] [([5], [6])] [] [5] [6] 3 2 st0).2 rfl).1⟩

/-- C8: under a storage satisfying get-after-set at the written key, if
`ocall_write_db ctx k v` returns `Success` (which it does) and the
subsequent `ocall_read_db` on the resulting context returns `Success`,
then reclaiming the value handle it wrote yields exactly `v`. -/
theorem write_read_roundtrip (σ κ : Type) [Storage σ] [Querier κ]
    (st st' : σ) (k v : List Nat) (g g2 : Nat) (s : HostState)
    (hset : Storage.set st k v = some (Except.ok (g, st')))
    (hget : Storage.get st' k = some (Except.ok (some v, g2)))
    (hsucc : (ocall_read_db (ocall_write_db (FullContext.new σ κ ⟨st⟩) k v s).2.1 k
        (ocall_write_db (FullContext.new σ κ ⟨st⟩) k v s).2.2).1 = OcallReturn.Success) :
    (ocall_write_db (FullContext.new σ κ ⟨st⟩) k v s).1 = OcallReturn.Success ∧
    recover_enclave_buffer
      (ocall_read_db (ocall_write_db (FullContext.new σ κ ⟨st⟩) k v s).2.1 k
        (ocall_write_db (FullContext.new σ κ ⟨st⟩) k v s).2.2).2.value
      (ocall_read_db (ocall_write_db (FullContext.new σ κ ⟨st⟩) k v s).2.1 k
        (ocall_write_db (FullContext.new σ κ ⟨st⟩) k v s).2.2).2.encHeap = some v := by
  simp only [ocall_write_db, ocall_read_db, get_implementations_from_context,
    FullContext.new, ExportImplementations.new, ocall_write_db_impl,
    ocall_read_db_impl, allocate_enclave_buffer, hset, hget] at hsucc ⊢
  by_cases hA : s.encAllocFail
  · simp [hA] at hsucc
  · simp [hA, recover_enclave_buffer, List.getElem?_concat_length] at hsucc ⊢

/-- Witness for C8: writing `[2]` at key `[1]` into the empty map store
and reading it back round-trips through the enclave buffer. -/
theorem write_read_roundtrip_witness :
    (ocall_write_db (FullContext.new MapStore Unit ⟨[]⟩) [1] [2] st0).1 = OcallReturn.Success ∧
    recover_enclave_buffer
      (ocall_read_db (ocall_write_db (FullContext.new MapStore Unit ⟨[]⟩) [1] [2] st0).2.1 [1]
        (ocall_write_db (FullContext.new MapStore Unit ⟨[]⟩) [1] [2] st0).2.2).2.value
      (ocall_read_db (ocall_write_db (FullContext.new MapStore Unit ⟨[]⟩) [1] [2] st0).2.1 [1]
        (ocall_write_db (FullContext.new MapStore Unit ⟨[]⟩) [1] [2] st0).2.2).2.encHeap = some [2] :=
  write_read_roundtrip MapStore Unit [] [([1], [2])] [1] [2] 3 7 st0 rfl rfl rfl

/-- C9: when the underlying `get` finds a value but allocating the enclave
output buffer fails, `ocall_read_db` returns `Failure` with the gas cost
already written and everything else — in particular the `vm_error` cell
and the error heap — left unchanged (no error is boxed). -/
theorem read_alloc_failure_path (σ κ : Type) [Storage σ] [Querier κ]
    (st : σ) (key v : List Nat) (g : Nat) (s : HostState)
    (hget : Storage.get st key = some (Except.ok (some v, g)))
    (hfail : s.encAllocFail = true) :
    ocall_read_db (FullContext.new σ κ ⟨st⟩) key s =
      (OcallReturn.Failure, { s with gas_used := g }) := by
  simp [ocall_read_db, get_implementations_from_context, FullContext.new,
    ExportImplementations.new, ocall_read_db_impl, allocate_enclave_buffer,
    hget, hfail]

/-- Witness for C9: a present key read under a failing enclave allocator. -/
theorem read_alloc_failure_path_witness :
    ocall_read_db (FullContext.new MapStore Unit ⟨[([1], [2])]⟩) [1] stAllocFail =
      (OcallReturn.Failure, { stAllocFail with gas_used := 7 }) :=
  read_alloc_failure_path MapStore Unit [([1], [2])] [1] [2] 7 stAllocFail rfl rfl

end SgxVm
